import Mathlib

/-!
Verification of the bulk-lookup orchestrator, record normalizer, and export
helpers of the processo-facil-datajud server (src/server/routes.ts and
src/unnamed/part_001, the shared zod schema file).

Modelling conventions:
* JavaScript async orchestration is embedded as pure state-free functions;
  the external DataJud lookup (`searchDataJudProcess` together with the
  network and the API key policy) is abstracted as an oracle
  `fetchOne : String → LookupOutcome` describing, per process number, whether
  the awaited call returns a record, throws an `Error` with a given message,
  or throws a non-`Error` value.
* `Promise.all` resolves with one result per input promise, positionally
  aligned with its input array (ECMAScript guarantee), so a batch fan-out is
  embedded as `List.map` over the batch.
* JavaScript falsiness of strings (`""` is falsy) and numbers (`0` is falsy)
  is modelled explicitly in the fallback helpers `strOr` / `intOr`.
* `new Date().toISOString()` (wall-clock time) is modelled as an explicit
  `now : String` parameter; `Date` parsing plus pt-BR locale rendering inside
  `formatDateSafely` is abstracted as an oracle
  `jsDateParse : String → Option (String × String)` returning the locale
  date/time renderings of a successfully parsed value, or `none` when
  `new Date(s)` yields an invalid date.
-/

set_option maxRecDepth 8000

/-! ## JavaScript string primitives -/

/-- One character of `String.prototype.toLowerCase`, restricted to the Basic
Latin and Latin-1 ranges exercised by this code base (A–Z and À–Þ except ×). -/
def jsCharLower (c : Char) : Char :=
  if c.toNat ≥ 65 ∧ c.toNat ≤ 90 then Char.ofNat (c.toNat + 32)
  else if c.toNat ≥ 192 ∧ c.toNat ≤ 222 ∧ c.toNat ≠ 215 then Char.ofNat (c.toNat + 32)
  else c

/-- Model of `String.prototype.toLowerCase` (Basic Latin / Latin-1 range). -/
def jsToLower (s : String) : String := String.mk (s.data.map jsCharLower)

/-- Model of `String.prototype.toUpperCase` restricted to ASCII, the only
range reached by the tribunal codes that flow into `toUpperCase` calls. -/
def jsToUpper (s : String) : String :=
  String.mk (s.data.map (fun c =>
    if c.toNat ≥ 97 ∧ c.toNat ≤ 122 then Char.ofNat (c.toNat - 32) else c))

/-- Whether the first character list starts the second one. -/
def listHasPre : List Char → List Char → Bool
  | [], _ => true
  | _ :: _, [] => false
  | a :: as, b :: bs => a == b && listHasPre as bs

/-- Whether the pattern occurs contiguously inside the character list. -/
def listHasSub (pat : List Char) : List Char → Bool
  | [] => listHasPre pat []
  | c :: cs => listHasPre pat (c :: cs) || listHasSub pat cs

/-- Model of `String.prototype.includes` (substring containment). -/
def strIncludes (s pat : String) : Bool := listHasSub pat.data s.data

/-- JavaScript `v || d` for a string-or-absent value: the empty string is
falsy, so both absence and `""` fall back to the default. -/
def strOr (v : Option String) (d : String) : String :=
  match v with
  | some s => if s = "" then d else s
  | none => d

/-- JavaScript `v || d` for a number-or-absent value: `0` is falsy. -/
def intOr (v : Option Int) (d : Int) : Int :=
  match v with
  | some n => if n = 0 then d else n
  | none => d

/-! ## Data model (src/unnamed/part_001, zod schemas) -/

/-- `tabulatedComplementSchema`. -/
structure TabulatedComplement where
  codigo : Int
  valor : Int
  nome : String
  descricao : String
deriving DecidableEq

/-- `movementOrgaoJulgadorSchema`. -/
structure MovementOrgaoJulgador where
  codigoOrgao : Int
  nomeOrgao : String
deriving DecidableEq

/-- `movementSchema`. -/
structure Movement where
  codigo : Option Int := none
  nome : String
  dataHora : String
  complemento : Option String := none
  complementosTabelados : Option (List TabulatedComplement) := none
  orgaoJulgador : Option MovementOrgaoJulgador := none
deriving DecidableEq

/-- `subjectSchema`. -/
structure Subject where
  codigo : Int
  nome : String
deriving DecidableEq

/-- `processResultSchema`. -/
structure ProcessResult where
  numeroProcesso : String
  classeProcessual : String
  codigoClasseProcessual : Int
  sistemaProcessual : String
  codigoSistema : Option Int := none
  formatoProcesso : String
  codigoFormato : Option Int := none
  tribunal : String
  ultimaAtualizacao : String
  grau : String
  dataAjuizamento : String
  nivelSigilo : Option Int := none
  movimentos : List Movement
  orgaoJulgador : String
  codigoOrgaoJulgador : Option Int := none
  codigoMunicipio : Option Int := none
  assuntos : List Subject
deriving DecidableEq

/-- The `status` enum of `bulkSearchResultSchema`. -/
inductive BulkStatus
  | success
  | error
  | not_found
deriving DecidableEq

/-- `bulkSearchResultSchema`: one outcome of the bulk lookup. -/
structure BulkSearchResult where
  processNumber : String
  result : Option ProcessResult
  error : Option String
  status : BulkStatus
deriving DecidableEq

/-! ## Tribunal registry (src/server/routes.ts:19-61) -/

/-- The `tribunalAliases` record, as an association list in source order. -/
def tribunalAliases : List (String × String) :=
  [("stj", "stj"), ("stf", "stf"), ("tst", "tst"), ("tse", "tse"), ("stm", "stm"),
   ("trf1", "trf1"), ("trf2", "trf2"), ("trf3", "trf3"), ("trf4", "trf4"),
   ("trf5", "trf5"), ("trf6", "trf6"),
   ("tjsp", "tjsp"), ("tjrj", "tjrj"), ("tjmg", "tjmg"), ("tjrs", "tjrs"),
   ("tjpr", "tjpr"), ("tjsc", "tjsc"), ("tjac", "tjac"), ("tjal", "tjal"),
   ("tjam", "tjam"), ("tjap", "tjap"), ("tjba", "tjba"), ("tjce", "tjce"),
   ("tjdft", "tjdft"), ("tjes", "tjes"), ("tjgo", "tjgo"), ("tjma", "tjma"),
   ("tjms", "tjms"), ("tjmt", "tjmt"), ("tjpa", "tjpa"), ("tjpb", "tjpb"),
   ("tjpe", "tjpe"), ("tjpi", "tjpi"), ("tjrn", "tjrn"), ("tjro", "tjro"),
   ("tjrr", "tjrr"), ("tjse", "tjse"), ("tjto", "tjto")]

/-! ## Bulk lookup orchestrator (src/server/routes.ts:245-333) -/

/-- Result of one awaited `searchDataJudProcess` call, as seen by the
`try`/`catch` in `bulkSearchDataJud`: either a returned record, a thrown
`Error` carrying a message, or a thrown non-`Error` value. -/
inductive LookupOutcome
  | ok (record : ProcessResult)
  | thrownError (msg : String)
  | thrownOther
deriving DecidableEq

/-- The demo-number test of src/server/routes.ts:260-262:
`processNumber === "0000000-00.0000.0.00.0000" ||
 processNumber === "demo-process-123" || processNumber.includes("demo")`. -/
def isDemoNumber (processNumber : String) : Bool :=
  processNumber == "0000000-00.0000.0.00.0000" ||
  processNumber == "demo-process-123" ||
  strIncludes processNumber "demo"

/-- The synthetic record fabricated for demo numbers inside
`bulkSearchDataJud` (src/server/routes.ts:265-300). `now` models
`new Date().toISOString()`. -/
def demoBulkRecord (tribunal now processNumber : String) : ProcessResult :=
  { numeroProcesso := processNumber
  , classeProcessual := "Ação Civil Pública (Demo)"
  , codigoClasseProcessual := 12729
  , sistemaProcessual := "PJe"
  , codigoSistema := some 3
  , formatoProcesso := "eletrônico"
  , codigoFormato := some 1
  , tribunal := jsToUpper tribunal
  , ultimaAtualizacao := now
  , grau := "1º Grau"
  , dataAjuizamento := "2023-01-15T00:00:00Z"
  , nivelSigilo := some 0
  , movimentos :=
      [{ codigo := some 26
       , nome := "Distribuição"
       , dataHora := "2023-01-15T10:00:00Z"
       , complemento := some "Processo distribuído para análise"
       , complementosTabelados :=
           some [{ codigo := 2, valor := 1, nome := "competência exclusiva"
                 , descricao := "tipo_de_distribuicao_redistribuicao" }]
       , orgaoJulgador := none }]
  , orgaoJulgador := "1ª Vara Cível"
  , codigoOrgaoJulgador := some 9700
  , codigoMunicipio := some 3550308
  , assuntos := [{ codigo := 10518, nome := "Responsabilidade Civil" }] }

/-- One element of the batch fan-out of `bulkSearchDataJud`
(src/server/routes.ts:257-321): the demo short-circuit, then the awaited
lookup with its `try`/`catch` classification. -/
def bulkItem (tribunal : String) (fetchOne : String → LookupOutcome) (now : String)
    (processNumber : String) : BulkSearchResult :=
  if isDemoNumber processNumber then
    { processNumber := processNumber
    , result := some (demoBulkRecord tribunal now processNumber)
    , error := none
    , status := .success }
  else
    match fetchOne processNumber with
    | .ok r =>
        { processNumber := processNumber, result := some r, error := none, status := .success }
    | .thrownError msg =>
        { processNumber := processNumber
        , result := none
        , error := some msg
        , status := if msg = "Processo não encontrado" then .not_found else .error }
    | .thrownOther =>
        { processNumber := processNumber
        , result := none
        , error := some "Erro desconhecido"
        , status := .error }

/-- The batch partition produced by the loop
`for (let i = 0; i < processNumbers.length; i += batchSize)` with
`batchSize = 10` and `batch = processNumbers.slice(i, i + batchSize)`
(src/server/routes.ts:253-256). -/
def chunksOf10 {α : Type} : List α → List (List α)
  | [] => []
  | x1 :: x2 :: x3 :: x4 :: x5 :: x6 :: x7 :: x8 :: x9 :: x10 :: rest =>
      [x1, x2, x3, x4, x5, x6, x7, x8, x9, x10] :: chunksOf10 rest
  | xs => [xs]

/-- The `results` array accumulated by `bulkSearchDataJud`: for each batch in
order, `Promise.all` of the fan-out (positionally aligned with the batch),
appended by `results.push(...batchResults)` (src/server/routes.ts:252-330). -/
def bulkResults (tribunal : String) (fetchOne : String → LookupOutcome) (now : String)
    (processNumbers : List String) : List BulkSearchResult :=
  ((chunksOf10 processNumbers).map
    (fun batch => batch.map (bulkItem tribunal fetchOne now))).flatten

/-- `bulkSearchDataJud` (src/server/routes.ts:245-333): the up-front tribunal
check throws for unknown codes, otherwise the batched loop runs to completion
and returns one outcome per input. -/
def bulkSearchDataJud (tribunal : String) (fetchOne : String → LookupOutcome)
    (now : String) (processNumbers : List String) :
    Except String (List BulkSearchResult) :=
  match tribunalAliases.lookup (jsToLower tribunal) with
  | none => .error ("Tribunal não suportado: " ++ tribunal)
  | some _ => .ok (bulkResults tribunal fetchOne now processNumbers)

/-- Observable scheduling events of the `bulkSearchDataJud` loop: the joined
concurrent fan-out of one batch, and the `setTimeout` pause. -/
inductive BulkEvent
  | fetchBatch (batch : List String)
  | sleep (ms : Nat)
deriving DecidableEq

/-- Event trace of the `bulkSearchDataJud` loop (src/server/routes.ts:255-330):
each iteration awaits its batch fan-out, then sleeps 1000 ms exactly when
`i + batchSize < processNumbers.length`, i.e. when input remains. -/
def bulkTrace : List String → List BulkEvent
  | [] => []
  | x1 :: x2 :: x3 :: x4 :: x5 :: x6 :: x7 :: x8 :: x9 :: x10 :: rest =>
      .fetchBatch [x1, x2, x3, x4, x5, x6, x7, x8, x9, x10] ::
        (if rest.isEmpty then [] else .sleep 1000 :: bulkTrace rest)
  | xs => [.fetchBatch xs]

/-! ## Record normalizer (src/server/routes.ts:106-126) -/

/-- A loosely-typed external field such as `processData.sistema` or
`processData.formato`: absent, a plain string, or an object with optional
`nome`/`codigo` members. -/
inductive RawNamedVal
  | absent
  | str (v : String)
  | obj (nome : Option String) (codigo : Option Int)
deriving DecidableEq

/-- Optional-chained `v?.nome`: only an object yields a `nome`. -/
def RawNamedVal.nomeField : RawNamedVal → Option String
  | .obj nome _ => nome
  | _ => none

/-- Optional-chained `v?.codigo`: only an object yields a `codigo`. -/
def RawNamedVal.codigoField : RawNamedVal → Option Int
  | .obj _ codigo => codigo
  | _ => none

/-- Raw `orgaoJulgador` object of an external hit. -/
structure RawOrgaoJulgador where
  nome : Option String := none
  codigo : Option Int := none
  codigoMunicipioIBGE : Option Int := none
deriving DecidableEq

/-- The `_source` payload of an external hit, with exactly the members that
`searchDataJudProcess` reads (src/server/routes.ts:104-125); each is optional
because the external shape is untyped. -/
structure RawProcessData where
  numeroProcesso : Option String := none
  classe : RawNamedVal := .absent
  sistema : RawNamedVal := .absent
  formato : RawNamedVal := .absent
  dataHoraUltimaAtualizacao : Option String := none
  dataUltimaAtualizacao : Option String := none
  grau : Option String := none
  dataAjuizamento : Option String := none
  nivelSigilo : Option Int := none
  movimentos : Option (List Movement) := none
  orgaoJulgador : Option RawOrgaoJulgador := none
  assuntos : Option (List Subject) := none
deriving DecidableEq

/-- Value of the JavaScript expression `v?.nome || v || d`: a proper string,
or the raw object itself leaking through when the object exists but its
`nome` is falsy (in that case `v` is truthy and wins over the default). -/
inductive JsStrVal
  | s (v : String)
  | leakObj (nome : Option String) (codigo : Option Int)
deriving DecidableEq

/-- The fallback chain `v?.nome || v || d` used for `sistemaProcessual` and
`formatoProcesso` (src/server/routes.ts:111,113). -/
def looseNameOr (v : RawNamedVal) (d : String) : JsStrVal :=
  match v with
  | .absent => .s d
  | .str s => if s = "" then .s d else .s s
  | .obj nome codigo =>
      match nome with
      | some n => if n = "" then .leakObj nome codigo else .s n
      | none => .leakObj nome codigo

/-- Output shape of the record-normalization block of `searchDataJudProcess`;
identical to `ProcessResult` except that the two loose fallback chains can
leak a raw object instead of a string. -/
structure NormalizedRecord where
  numeroProcesso : String
  classeProcessual : String
  codigoClasseProcessual : Int
  sistemaProcessual : JsStrVal
  codigoSistema : Option Int
  formatoProcesso : JsStrVal
  codigoFormato : Option Int
  tribunal : String
  ultimaAtualizacao : String
  grau : String
  dataAjuizamento : String
  nivelSigilo : Option Int
  movimentos : List Movement
  orgaoJulgador : String
  codigoOrgaoJulgador : Option Int
  codigoMunicipio : Option Int
  assuntos : List Subject
deriving DecidableEq

/-- The record-shaping block of `searchDataJudProcess`
(src/server/routes.ts:106-126). `now` models the `new Date().toISOString()`
fallback on line 116. -/
def normalizeHit (processData : RawProcessData) (processNumber tribunal now : String) :
    NormalizedRecord :=
  { numeroProcesso := strOr processData.numeroProcesso processNumber
  , classeProcessual := strOr processData.classe.nomeField "Não informado"
  , codigoClasseProcessual := intOr processData.classe.codigoField 0
  , sistemaProcessual := looseNameOr processData.sistema "Não informado"
  , codigoSistema := processData.sistema.codigoField
  , formatoProcesso := looseNameOr processData.formato "eletrônico"
  , codigoFormato := processData.formato.codigoField
  , tribunal := jsToUpper tribunal
  , ultimaAtualizacao :=
      strOr processData.dataHoraUltimaAtualizacao
        (strOr processData.dataUltimaAtualizacao now)
  , grau := strOr processData.grau "Não informado"
  , dataAjuizamento := strOr processData.dataAjuizamento "Não informado"
  , nivelSigilo := processData.nivelSigilo
  , movimentos := processData.movimentos.getD []
  , orgaoJulgador := strOr (processData.orgaoJulgador.bind RawOrgaoJulgador.nome) "Não informado"
  , codigoOrgaoJulgador := processData.orgaoJulgador.bind RawOrgaoJulgador.codigo
  , codigoMunicipio := processData.orgaoJulgador.bind RawOrgaoJulgador.codigoMunicipioIBGE
  , assuntos := processData.assuntos.getD [] }

/-- JavaScript truthiness of a string-or-absent value. -/
def truthyStr : Option String → Bool
  | some s => s != ""
  | none => false

/-- Whether a truthy value is present for the
`dataHoraUltimaAtualizacao || dataUltimaAtualizacao` part of the fallback
chain on src/server/routes.ts:116, i.e. whether the wall-clock fallback is
avoided. -/
def hasUpstreamTimestamp (d : RawProcessData) : Bool :=
  truthyStr d.dataHoraUltimaAtualizacao || truthyStr d.dataUltimaAtualizacao

/-! ## Safe date formatting (src/server/routes.ts:336-367) -/

/-- The `format` parameter of `formatDateSafely`. -/
inductive DateFmt
  | date
  | time
  | datetime
deriving DecidableEq

/-- The `sentinelValues` list of src/server/routes.ts:340. -/
def sentinelValues : List String := ["Não informado", "N/A", "n/a", "não disponível"]

/-- The sentinel test of src/server/routes.ts:343:
`sentinelValues.some(s => dateValue.toLowerCase() === s.toLowerCase())`. -/
def isSentinelDate (dateValue : String) : Bool :=
  sentinelValues.any (fun s => jsToLower dateValue == jsToLower s)

/-- `formatDateSafely` (src/server/routes.ts:336-367) for a string argument.
`jsDateParse` abstracts `new Date(dateValue)` plus the pt-BR locale
renderers: `some (d, t)` gives `toLocaleDateString` and `toLocaleTimeString`
of a valid parse, `none` is the `isNaN(date.getTime())` case. -/
def formatDateSafely (jsDateParse : String → Option (String × String))
    (dateValue : String) (format : DateFmt) : String :=
  if dateValue = "" then ""
  else if isSentinelDate dateValue then dateValue
  else
    match jsDateParse dateValue with
    | none => dateValue
    | some (d, t) =>
        match format with
        | .date => d
        | .time => t
        | .datetime => d ++ " " ++ t

/-! ## CSV export (src/server/routes.ts:461-530) -/

/-- A cell value of the per-process CSV record: the code stores strings and,
for the count and class-code columns, numbers. -/
inductive CsvCell
  | s (v : String)
  | n (v : Int)
deriving DecidableEq

/-- The full-history blob of src/server/routes.ts:502-506:
one `[idx] date time - name | note` fragment per movement, joined by
`" || "`; a falsy `complemento` contributes nothing. -/
def movementsText (jsDateParse : String → Option (String × String))
    (movs : List Movement) : String :=
  String.intercalate " || " (movs.enum.map (fun (idx, mov) =>
    "[" ++ toString (idx + 1) ++ "] " ++
    formatDateSafely jsDateParse mov.dataHora .date ++ " " ++
    formatDateSafely jsDateParse mov.dataHora .time ++ " - " ++ mov.nome ++
    (match mov.complemento with
     | some c => if c = "" then "" else " | " ++ c
     | none => "")))

/-- The expression `formatDateSafely(process.movimentos[i]?.dataHora)`: an
out-of-range index passes `undefined`, which the falsiness guard at the top
of `formatDateSafely` turns into the empty string. -/
def movDateAt (jsDateParse : String → Option (String × String))
    (movs : List Movement) (i : Nat) : String :=
  match movs.get? i with
  | some m => formatDateSafely jsDateParse m.dataHora .date
  | none => ""

/-- The expression `process.movimentos[i]?.nome` with the empty string as
its falsy default. -/
def movNameAt (movs : List Movement) (i : Nat) : String :=
  strOr ((movs.get? i).map Movement.nome) ""

/-- One record built by `generateCSV` for one process
(src/server/routes.ts:464-520), as the ordered key/value list of the
JavaScript object (insertion order is the CSV column order). -/
def csvRow (jsDateParse : String → Option (String × String))
    (includeMovements includeSubjects : Bool) (p : ProcessResult) :
    List (String × CsvCell) :=
  [("Número do Processo", .s p.numeroProcesso),
   ("Classe Processual", .s p.classeProcessual),
   ("Código Classe", .n p.codigoClasseProcessual),
   ("Tribunal", .s p.tribunal),
   ("Órgão Julgador", .s p.orgaoJulgador),
   ("Grau", .s p.grau),
   ("Sistema", .s p.sistemaProcessual),
   ("Formato", .s p.formatoProcesso),
   ("Data de Ajuizamento", .s (formatDateSafely jsDateParse p.dataAjuizamento .date)),
   ("Última Atualização", .s (formatDateSafely jsDateParse p.ultimaAtualizacao .date))]
  ++ (if includeSubjects && !p.assuntos.isEmpty then
       [("Assuntos", .s (String.intercalate "; " (p.assuntos.map Subject.nome))),
        ("Códigos dos Assuntos",
         .s (String.intercalate "; " (p.assuntos.map (fun s => toString s.codigo))))]
      else
       [("Assuntos", .s ""), ("Códigos dos Assuntos", .s "")])
  ++ (if includeMovements && !p.movimentos.isEmpty then
       [("Total de Movimentações", .n p.movimentos.length),
        ("Último Andamento", .s (movNameAt p.movimentos 0)),
        ("Data Último Andamento", .s (movDateAt jsDateParse p.movimentos 0)),
        ("Penúltimo Andamento", .s (movNameAt p.movimentos 1)),
        ("Data Penúltimo Andamento", .s (movDateAt jsDateParse p.movimentos 1)),
        ("Antepenúltimo Andamento", .s (movNameAt p.movimentos 2)),
        ("Data Antepenúltimo Andamento", .s (movDateAt jsDateParse p.movimentos 2)),
        ("Histórico Completo de Movimentações", .s (movementsText jsDateParse p.movimentos))]
      else
       [("Total de Movimentações", .n 0),
        ("Último Andamento", .s ""),
        ("Data Último Andamento", .s ""),
        ("Penúltimo Andamento", .s ""),
        ("Data Penúltimo Andamento", .s ""),
        ("Antepenúltimo Andamento", .s ""),
        ("Data Antepenúltimo Andamento", .s ""),
        ("Histórico Completo de Movimentações", .s "")])

/-! ## Bulk route (src/server/routes.ts:939-1021 and bulkSearchSchema) -/

/-- `bulkSearchSchema` (src/unnamed/part_001:70-75): tribunal nonempty, each
process number nonempty, list length between 1 and 1000. -/
def bulkSearchSchemaCheck (tribunal : String) (processNumbers : List String) : Bool :=
  tribunal != "" &&
  processNumbers.all (fun n => n != "") &&
  decide (1 ≤ processNumbers.length) &&
  decide (processNumbers.length ≤ 1000)

/-- Failure modes of the bulk route handler: a zod validation failure of the
request body, or an error thrown past the orchestrator. -/
inductive RouteErr
  | invalidRequest
  | thrown (msg : String)
deriving DecidableEq

/-- The route-level demo fixture list of src/server/routes.ts:952-984; the
`Date` constructions `new Date(2023, 0, 15 + index)` and their time variant
are abstracted as index-keyed oracles `dayIso` / `dayTimeIso`. -/
def routeDemoResults (tribunal now : String) (dayIso dayTimeIso : Nat → String)
    (processNumbers : List String) : List BulkSearchResult :=
  processNumbers.enum.map (fun (index, processNumber) =>
    { processNumber := processNumber
    , result := some
        { numeroProcesso := processNumber
        , classeProcessual := "Ação Civil Pública (Demo " ++ toString (index + 1) ++ ")"
        , codigoClasseProcessual := 12729
        , sistemaProcessual := "PJe"
        , codigoSistema := some 3
        , formatoProcesso := "eletrônico"
        , codigoFormato := some 1
        , tribunal := jsToUpper tribunal
        , ultimaAtualizacao := now
        , grau := "1º Grau"
        , dataAjuizamento := dayIso index
        , nivelSigilo := some 0
        , movimentos :=
            [{ codigo := some 26
             , nome := "Distribuição"
             , dataHora := dayTimeIso index
             , complemento :=
                 some ("Processo distribuído para análise - Demo " ++ toString (index + 1))
             , complementosTabelados := none
             , orgaoJulgador := none }]
        , orgaoJulgador := toString (index + 1) ++ "ª Vara Cível"
        , codigoOrgaoJulgador := some (9700 + (index : Int))
        , codigoMunicipio := some 3550308
        , assuntos := [{ codigo := 10518, nome := "Responsabilidade Civil" }] }
    , error := none
    , status := .success })

/-- The `/api/bulk-search` handler (src/server/routes.ts:939-1021): zod
validation first (a failure is rejected before any lookup work), then the
any-demo-number fixture path, then `bulkSearchDataJud`. -/
def bulkRoute (tribunal : String) (processNumbers : List String)
    (fetchOne : String → LookupOutcome) (now : String)
    (dayIso dayTimeIso : Nat → String) : Except RouteErr (List BulkSearchResult) :=
  if bulkSearchSchemaCheck tribunal processNumbers then
    if processNumbers.any (fun num =>
        strIncludes num "demo" ||
        num == "0000000-00.0000.0.00.0000" ||
        num == "demo-process-123") then
      .ok (routeDemoResults tribunal now dayIso dayTimeIso processNumbers)
    else
      match bulkSearchDataJud tribunal fetchOne now processNumbers with
      | .ok rs => .ok rs
      | .error msg => .error (.thrown msg)
  else .error .invalidRequest

/-! ## Spec-side comparison definitions -/

/-- Insert a process number into a list sorted by finish time. -/
def insertByFinish (finish : String → Nat) (x : String) : List String → List String
  | [] => [x]
  | y :: ys =>
      if finish x ≤ finish y then x :: y :: ys else y :: insertByFinish finish x ys

/-- Modelled from the spec: the "completion order of the concurrent fan-out
lookups" named by the result-ordering sentence of §4.4 — the batch sorted by
each lookup's finish time. This is a spec-side comparison definition (the
source has no such notion: `Promise.all` is positional), used only to state
the ordering claim. -/
def specCompletionOrder (finish : String → Nat) : List String → List String
  | [] => []
  | x :: xs => insertByFinish finish x (specCompletionOrder finish xs)

/-! ## Helper lemmas -/

theorem strOr_of_truthy {v : Option String} (h : truthyStr v = true) (d1 d2 : String) :
    strOr v d1 = strOr v d2 := by
  cases v with
  | none => simp [truthyStr] at h
  | some s =>
      simp [truthyStr] at h
      simp [strOr, h]

theorem strOr_of_falsy {v : Option String} (h : truthyStr v = false) (d : String) :
    strOr v d = d := by
  cases v <;> simp_all [truthyStr, strOr]

theorem chunksOf10_flatten {α : Type} : ∀ xs : List α, (chunksOf10 xs).flatten = xs := by
  intro xs
  induction xs using chunksOf10.induct <;> simp [chunksOf10, *]

theorem chunksOf10_ne_nil {α : Type} (xs : List α) (h : xs ≠ []) : chunksOf10 xs ≠ [] := by
  induction xs using chunksOf10.induct <;> simp_all [chunksOf10]

theorem short_of_no_ten {α : Type} (xs : List α)
    (h2 : ∀ (x1 x2 x3 x4 x5 x6 x7 x8 x9 x10 : α) (rest : List α),
        xs = x1 :: x2 :: x3 :: x4 :: x5 :: x6 :: x7 :: x8 :: x9 :: x10 :: rest → False) :
    xs.length ≤ 9 := by
  rcases xs with _ | ⟨a1, _ | ⟨a2, _ | ⟨a3, _ | ⟨a4, _ | ⟨a5, _ | ⟨a6, _ | ⟨a7,
      _ | ⟨a8, _ | ⟨a9, _ | ⟨a10, rest⟩⟩⟩⟩⟩⟩⟩⟩⟩⟩ <;> simp
  exact absurd rfl (h2 a1 a2 a3 a4 a5 a6 a7 a8 a9 a10 rest)

theorem flatten_map_map {α β : Type} (g : α → β) :
    ∀ L : List (List α), (L.map (List.map g)).flatten = L.flatten.map g := by
  intro L
  induction L with
  | nil => rfl
  | cons b L ih => simp only [List.map_cons, List.flatten_cons, List.map_append, ih]

theorem bulkResults_eq_map (tribunal : String) (fetchOne : String → LookupOutcome)
    (now : String) (ns : List String) :
    bulkResults tribunal fetchOne now ns = ns.map (bulkItem tribunal fetchOne now) := by
  unfold bulkResults
  rw [flatten_map_map, chunksOf10_flatten]

theorem bulkItem_processNumber (tribunal : String) (fetchOne : String → LookupOutcome)
    (now n : String) : (bulkItem tribunal fetchOne now n).processNumber = n := by
  unfold bulkItem
  split
  · rfl
  · rcases hf : fetchOne n <;> rfl

theorem bulkTrace_eq_intersperse : ∀ xs : List String,
    bulkTrace xs =
      List.intersperse (.sleep 1000) ((chunksOf10 xs).map BulkEvent.fetchBatch) := by
  intro xs
  induction xs using chunksOf10.induct with
  | case1 => rfl
  | case2 x1 x2 x3 x4 x5 x6 x7 x8 x9 x10 rest ih =>
      rcases rest with _ | ⟨y, ys⟩
      · rfl
      · have hne := chunksOf10_ne_nil (y :: ys) (by simp)
        rcases hc : chunksOf10 (y :: ys) with _ | ⟨c, cs⟩
        · exact absurd hc hne
        · simp [bulkTrace, chunksOf10, ih, hc, List.intersperse]
  | case3 xs h1 h2 =>
      rw [chunksOf10.eq_3 xs h1 h2, bulkTrace.eq_3 xs h1 h2]
      rfl

/-- Per-batch length profile of the partition, as a function of the input
length: full batches of 10 and a final short batch. -/
def chunkLens : Nat → List Nat
  | 0 => []
  | n + 10 => 10 :: chunkLens n
  | n => [n]

theorem chunkLens_small (n : Nat) (h1 : 1 ≤ n) (h9 : n ≤ 9) : chunkLens n = [n] := by
  interval_cases n <;> rfl

theorem chunksOf10_map_length {α : Type} : ∀ xs : List α,
    (chunksOf10 xs).map List.length = chunkLens xs.length := by
  intro xs
  induction xs using chunksOf10.induct with
  | case1 => rfl
  | case2 x1 x2 x3 x4 x5 x6 x7 x8 x9 x10 rest ih =>
      have : (x1 :: x2 :: x3 :: x4 :: x5 :: x6 :: x7 :: x8 :: x9 :: x10 :: rest).length
          = rest.length + 10 := by simp
      rw [this]
      simp [chunksOf10, chunkLens, ih]
  | case3 xs h1 h2 =>
      rw [chunksOf10.eq_3 xs h1 h2]
      have hlen : xs.length ≤ 9 := short_of_no_ten xs h2
      have hpos : 1 ≤ xs.length := by
        rcases xs with _ | ⟨a, t⟩
        · exact absurd rfl h1
        · simp
      rw [chunkLens_small xs.length hpos hlen]
      rfl

theorem chunksOf10_batch_bounds {α : Type} : ∀ xs : List α,
    ∀ b ∈ chunksOf10 xs, b ≠ [] ∧ b.length ≤ 10 := by
  intro xs
  induction xs using chunksOf10.induct with
  | case1 => intro b hb; simp [chunksOf10] at hb
  | case2 x1 x2 x3 x4 x5 x6 x7 x8 x9 x10 rest ih =>
      intro b hb
      simp only [chunksOf10, List.mem_cons] at hb
      rcases hb with hb | hb
      · subst hb; exact ⟨by simp, by simp⟩
      · exact ih b hb
  | case3 xs h1 h2 =>
      intro b hb
      rw [chunksOf10.eq_3 xs h1 h2] at hb
      simp at hb
      subst hb
      constructor
      · exact h1
      · have h9 := short_of_no_ten _ h2
        omega

/-! ## Claim theorems -/

/-- C1: for every non-empty list of process numbers and every supported
tribunal, `bulkSearchDataJud` returns a list with exactly one outcome per
input identifier, every outcome's `processNumber` drawn from the input —
no outcome invented or dropped, whatever the individual lookups do. -/
theorem c1_bulk_one_outcome_per_input
    (tribunal : String) (fetchOne : String → LookupOutcome) (now : String)
    (ns : List String)
    (hT : (tribunalAliases.lookup (jsToLower tribunal)).isSome = true)
    (hne : ns ≠ []) :
    ∃ rs, bulkSearchDataJud tribunal fetchOne now ns = .ok rs ∧
      rs.length = ns.length ∧ ∀ r ∈ rs, r.processNumber ∈ ns := by
  unfold bulkSearchDataJud
  rcases hL : tribunalAliases.lookup (jsToLower tribunal) with _ | a
  · rw [hL] at hT; simp at hT
  · refine ⟨bulkResults tribunal fetchOne now ns, rfl, ?_, ?_⟩
    · rw [bulkResults_eq_map, List.length_map]
    · intro r hr
      rw [bulkResults_eq_map] at hr
      obtain ⟨n, hn, rfl⟩ := List.mem_map.mp hr
      rw [bulkItem_processNumber]
      exact hn

/-- Closed instance of the C1 theorem: two ordinary identifiers under a
supported tribunal with an always-failing lookup oracle. -/
theorem c1_bulk_one_outcome_per_input_witness :
    ∃ rs, bulkSearchDataJud "tjsp" (fun _ => .thrownOther) "T" ["p1", "p2"] = .ok rs ∧
      rs.length = 2 ∧ ∀ r ∈ rs, r.processNumber ∈ ["p1", "p2"] := by
  obtain ⟨rs, h1, h2, h3⟩ := c1_bulk_one_outcome_per_input "tjsp" (fun _ => .thrownOther)
    "T" ["p1", "p2"] (by decide) (by decide)
  exact ⟨rs, h1, by simpa using h2, h3⟩

/-- Exactly-one-of-`result`/`error` shape of an outcome, matching `status`. -/
def outcomeConsistent (r : BulkSearchResult) : Prop :=
  (r.status = .success ∧ r.result.isSome = true ∧ r.error = none) ∨
  ((r.status = .error ∨ r.status = .not_found) ∧ r.result = none ∧ r.error.isSome = true)

/-- C2: every outcome produced by the bulk lookup populates exactly one of
`result` and `error`, in agreement with `status` (`success` carries a record
and no error; `error` and `not_found` carry an error message and no record). -/
theorem c2_outcome_exactly_one_field
    (tribunal : String) (fetchOne : String → LookupOutcome) (now : String)
    (ns : List String) :
    ∀ r ∈ bulkResults tribunal fetchOne now ns, outcomeConsistent r := by
  intro r hr
  rw [bulkResults_eq_map] at hr
  obtain ⟨n, _, rfl⟩ := List.mem_map.mp hr
  unfold bulkItem outcomeConsistent
  split
  · left
    exact ⟨rfl, rfl, rfl⟩
  · rcases hf : fetchOne n with r' | msg | _
    · left
      exact ⟨rfl, rfl, rfl⟩
    · right
      refine ⟨?_, rfl, rfl⟩
      by_cases hm : msg = "Processo não encontrado" <;> simp [hm]
    · right
      exact ⟨Or.inl rfl, rfl, rfl⟩

/-- Closed instance of the C2 theorem at the outcome of a failing lookup. -/
theorem c2_outcome_exactly_one_field_witness :
    outcomeConsistent
      { processNumber := "p1", result := none
      , error := some "Erro desconhecido", status := .error } :=
  c2_outcome_exactly_one_field "tjsp" (fun _ => .thrownOther) "T" ["p1"]
    { processNumber := "p1", result := none
    , error := some "Erro desconhecido", status := .error } (by decide)

/-- C3: per-item classification in the bulk lookup — a thrown not-found
failure yields `not_found`, any other thrown `Error` yields `error` with the
failure's message, a successful lookup yields `success` with the record; and
for a supported tribunal the orchestrator returns a full outcome list
whatever the per-item oracle does (no per-item failure escapes). -/
theorem c3_failure_classification
    (tribunal : String) (fetchOne : String → LookupOutcome) (now n : String)
    (hd : isDemoNumber n = false) :
    (∀ r, fetchOne n = .ok r →
        bulkItem tribunal fetchOne now n =
          { processNumber := n, result := some r, error := none, status := .success }) ∧
    (fetchOne n = .thrownError "Processo não encontrado" →
        bulkItem tribunal fetchOne now n =
          { processNumber := n, result := none
          , error := some "Processo não encontrado", status := .not_found }) ∧
    (∀ msg, fetchOne n = .thrownError msg → msg ≠ "Processo não encontrado" →
        bulkItem tribunal fetchOne now n =
          { processNumber := n, result := none, error := some msg, status := .error }) ∧
    (∀ ms : List String, (tribunalAliases.lookup (jsToLower tribunal)).isSome = true →
        ∃ rs, bulkSearchDataJud tribunal fetchOne now ms = .ok rs ∧
          rs.length = ms.length) := by
  refine ⟨?_, ?_, ?_, ?_⟩
  · intro r hf
    simp [bulkItem, hd, hf]
  · intro hf
    simp [bulkItem, hd, hf]
  · intro msg hf hm
    simp [bulkItem, hd, hf, hm]
  · intro ms hT
    unfold bulkSearchDataJud
    rcases hL : tribunalAliases.lookup (jsToLower tribunal) with _ | a
    · rw [hL] at hT; simp at hT
    · exact ⟨_, rfl, by rw [bulkResults_eq_map, List.length_map]⟩

/-- Closed instance of the C3 theorem: the not-found classification at a
concrete identifier. -/
theorem c3_failure_classification_witness :
    bulkItem "tjsp" (fun _ => .thrownError "Processo não encontrado") "T" "12345" =
      { processNumber := "12345", result := none
      , error := some "Processo não encontrado", status := .not_found } :=
  (c3_failure_classification "tjsp" (fun _ => .thrownError "Processo não encontrado")
    "T" "12345" (by decide)).2.1 rfl

/-- C9: inside the bulk lookup, every identifier passing the demo test
(equals the zero template, equals "demo-process-123", or contains "demo")
yields the fabricated success outcome with the synthetic record, with no
dependence on the lookup oracle — so no external call and no API-key
sensitivity. -/
theorem c9_demo_short_circuit
    (tribunal : String) (fetchOne : String → LookupOutcome) (now n : String)
    (h : isDemoNumber n = true) :
    bulkItem tribunal fetchOne now n =
      { processNumber := n, result := some (demoBulkRecord tribunal now n)
      , error := none, status := .success } := by
  simp [bulkItem, h]

/-- Closed instance of the C9 theorem: the demo identifier short-circuits an
oracle that would otherwise fail. -/
theorem c9_demo_short_circuit_witness :
    bulkItem "tjsp" (fun _ => .thrownError "irrelevante") "T" "demo-process-123" =
      { processNumber := "demo-process-123"
      , result := some (demoBulkRecord "tjsp" "T" "demo-process-123")
      , error := none, status := .success } :=
  c9_demo_short_circuit "tjsp" (fun _ => .thrownError "irrelevante") "T"
    "demo-process-123" (by decide)

/-- C4 counterexample: on a payload with no last-updated timestamp at all,
the normalizer writes the current wall-clock value — not the "Não informado"
sentinel — into `ultimaAtualizacao`, so two runs at different clock readings
produce different records. -/
theorem c4_normalizer_counterexample :
    (normalizeHit {} "123" "tjsp" "2024-01-01T00:00:00.000Z").ultimaAtualizacao
        = "2024-01-01T00:00:00.000Z" ∧
    (normalizeHit {} "123" "tjsp" "2024-01-01T00:00:00.000Z").ultimaAtualizacao
        ≠ "Não informado" ∧
    normalizeHit {} "123" "tjsp" "2024-01-01T00:00:00.000Z"
        ≠ normalizeHit {} "123" "tjsp" "2025-06-30T12:00:00.000Z" := by
  decide

/-- C4 as amended: the record-shaping step is deterministic in (payload,
identifier, court, current time); every field except `ultimaAtualizacao` is
independent of the current time; with a truthy upstream timestamp the whole
record is time-independent; without one, `ultimaAtualizacao` is the current
wall-clock value rather than the sentinel. -/
theorem c4_normalize_time_dependence
    (d : RawProcessData) (pn court t1 t2 : String) :
    ({ normalizeHit d pn court t1 with ultimaAtualizacao := "" }
        = { normalizeHit d pn court t2 with ultimaAtualizacao := "" }) ∧
    (hasUpstreamTimestamp d = true →
        normalizeHit d pn court t1 = normalizeHit d pn court t2) ∧
    (hasUpstreamTimestamp d = false →
        (normalizeHit d pn court t1).ultimaAtualizacao = t1) := by
  refine ⟨rfl, ?_, ?_⟩
  · intro h
    unfold hasUpstreamTimestamp at h
    unfold normalizeHit
    simp only [NormalizedRecord.mk.injEq, and_true, true_and]
    rcases Bool.or_eq_true_iff.mp h with h | h
    · exact strOr_of_truthy h _ _
    · rw [show strOr d.dataUltimaAtualizacao t1 = strOr d.dataUltimaAtualizacao t2 from
        strOr_of_truthy h t1 t2]
  · intro h
    unfold hasUpstreamTimestamp at h
    rw [Bool.or_eq_false_iff] at h
    show strOr _ (strOr _ t1) = t1
    rw [strOr_of_falsy h.2, strOr_of_falsy h.1]

/-- Closed instance of the amended C4 theorem: with an upstream timestamp
present, two different clock readings give identical records. -/
theorem c4_normalize_time_dependence_witness :
    normalizeHit { dataHoraUltimaAtualizacao := some "2023-05-05T00:00:00Z" }
        "1" "tjsp" "T1"
      = normalizeHit { dataHoraUltimaAtualizacao := some "2023-05-05T00:00:00Z" }
        "1" "tjsp" "T2" :=
  (c4_normalize_time_dependence
    { dataHoraUltimaAtualizacao := some "2023-05-05T00:00:00Z" }
    "1" "tjsp" "T1" "T2").2.1 (by decide)

/-- Finish-time schedule used to exhibit a fan-out completing out of input
order: the first item finishes last. -/
def exFinish : String → Nat := fun n => if n = "a" then 5 else 1

/-- C5 counterexample: with a two-item batch whose second lookup finishes
first, the completion order is ["b", "a"], yet the outcome list of the bulk
lookup is positionally aligned with the input, ["a", "b"] — outcomes do not
appear in completion order. -/
theorem c5_completion_order_counterexample :
    specCompletionOrder exFinish ["a", "b"] = ["b", "a"] ∧
    (bulkResults "tjsp" (fun _ => .thrownOther) "T" ["a", "b"]).map
        BulkSearchResult.processNumber = ["a", "b"] ∧
    (["a", "b"] : List String) ≠ ["b", "a"] := by
  decide

/-- C5 as amended: the outcome list of the bulk lookup is in input order —
the i-th outcome echoes the i-th requested identifier, across batch
boundaries, regardless of lookup completion times (`Promise.all` is
positional). -/
theorem c5_input_order
    (tribunal : String) (fetchOne : String → LookupOutcome) (now : String)
    (ns : List String) (rs : List BulkSearchResult)
    (h : bulkSearchDataJud tribunal fetchOne now ns = .ok rs) :
    rs.map BulkSearchResult.processNumber = ns := by
  unfold bulkSearchDataJud at h
  rcases hL : tribunalAliases.lookup (jsToLower tribunal) with _ | a
  · rw [hL] at h
    exact absurd h (by simp)
  · rw [hL] at h
    simp only [Except.ok.injEq] at h
    subst h
    rw [bulkResults_eq_map]
    rw [List.map_map]
    conv_rhs => rw [← List.map_id ns]
    exact List.map_congr_left (fun n _ => bulkItem_processNumber tribunal fetchOne now n)

/-- Closed instance of the amended C5 theorem on a concrete two-item call. -/
theorem c5_input_order_witness :
    ([{ processNumber := "a", result := none
      , error := some "Erro desconhecido", status := .error },
      { processNumber := "b", result := none
      , error := some "Erro desconhecido", status := .error }] :
        List BulkSearchResult).map BulkSearchResult.processNumber = ["a", "b"] :=
  c5_input_order "tjsp" (fun _ => .thrownOther) "T" ["a", "b"] _ (by rfl)

/-- C6: the bulk loop partitions the input into batches of 10 taken strictly
in order (the event trace is the batches in order, with a 1000 ms pause after
every batch except the last), the batches reassemble exactly to the input,
every batch is non-empty with at most 10 items, and 25 identifiers form
exactly the batch profile [10, 10, 5]. -/
theorem c6_batching (xs : List String) :
    bulkTrace xs =
      List.intersperse (.sleep 1000) ((chunksOf10 xs).map BulkEvent.fetchBatch) ∧
    (chunksOf10 xs).flatten = xs ∧
    (∀ b ∈ chunksOf10 xs, b ≠ [] ∧ b.length ≤ 10) ∧
    (xs.length = 25 → (chunksOf10 xs).map List.length = [10, 10, 5]) := by
  refine ⟨bulkTrace_eq_intersperse xs, chunksOf10_flatten xs, chunksOf10_batch_bounds xs, ?_⟩
  intro h25
  rw [chunksOf10_map_length, h25]
  decide

/-- Closed instance of the C6 theorem at a concrete 25-identifier list. -/
theorem c6_batching_witness :
    (List.replicate 25 "p").length = 25 ∧
    (chunksOf10 (List.replicate 25 "p")).map List.length = [10, 10, 5] :=
  ⟨by decide, (c6_batching (List.replicate 25 "p")).2.2.2 (by decide)⟩

/-- C7: a bulk request with an empty identifier list, or more than 1000
identifiers, is rejected by schema validation as an invalid request whatever
the lookup oracle would do (so before any network call or per-item work);
with a length between 1 and 1000 (and otherwise well-formed fields) the
request passes validation. -/
theorem c7_bulk_length_validation
    (tribunal : String) (ns : List String) (fetchOne : String → LookupOutcome)
    (now : String) (dayIso dayTimeIso : Nat → String) :
    ((ns.length = 0 ∨ ns.length > 1000) →
        bulkRoute tribunal ns fetchOne now dayIso dayTimeIso = .error .invalidRequest) ∧
    (1 ≤ ns.length → ns.length ≤ 1000 → tribunal ≠ "" → (∀ n ∈ ns, n ≠ "") →
        bulkRoute tribunal ns fetchOne now dayIso dayTimeIso ≠ .error .invalidRequest) := by
  constructor
  · intro h
    have hc : bulkSearchSchemaCheck tribunal ns = false := by
      unfold bulkSearchSchemaCheck
      rcases h with h | h
      · simp [h]
      · have hgt : ¬ ns.length ≤ 1000 := by omega
        simp [hgt]
    unfold bulkRoute
    rw [hc]
    rfl
  · intro h1 h2 h3 h4
    have hc : bulkSearchSchemaCheck tribunal ns = true := by
      unfold bulkSearchSchemaCheck
      simp only [Bool.and_eq_true, decide_eq_true_eq, List.all_eq_true, bne_iff_ne, ne_eq]
      exact ⟨⟨⟨h3, h4⟩, h1⟩, h2⟩
    unfold bulkRoute
    rw [hc]
    simp only [if_true]
    split
    · simp
    · split <;> simp

/-- Closed instance of the C7 theorem: the empty list is rejected as an
invalid request. -/
theorem c7_bulk_length_validation_witness :
    bulkRoute "tjsp" [] (fun _ => .thrownOther) "T" (fun _ => "d") (fun _ => "t")
      = .error .invalidRequest :=
  (c7_bulk_length_validation "tjsp" [] (fun _ => .thrownOther) "T"
    (fun _ => "d") (fun _ => "t")).1 (Or.inl rfl)

theorem lookup_append_right {l1 l2 : List (String × CsvCell)} {k : String}
    (h : (l1.map Prod.fst).all (fun a => a != k) = true) :
    (l1 ++ l2).lookup k = l2.lookup k := by
  induction l1 with
  | nil => rfl
  | cons a l ih =>
      rcases a with ⟨pk, v⟩
      simp only [List.map_cons, List.all_cons, Bool.and_eq_true, bne_iff_ne, ne_eq] at h
      have hk : (k == pk) = false := beq_eq_false_iff_ne.mpr (fun e => h.1 e.symm)
      simp only [List.cons_append, List.lookup, hk]
      exact ih h.2

/-- A process record with no movements, used to exercise the CSV export. -/
def sampleProcessNoMovs : ProcessResult :=
  { numeroProcesso := "0001"
  , classeProcessual := "Classe"
  , codigoClasseProcessual := 1
  , sistemaProcessual := "PJe"
  , formatoProcesso := "eletrônico"
  , tribunal := "TJSP"
  , ultimaAtualizacao := "2023-01-01T00:00:00Z"
  , grau := "G1"
  , dataAjuizamento := "2023-01-01T00:00:00Z"
  , movimentos := []
  , orgaoJulgador := "Vara"
  , assuntos := [] }

/-- C8 counterexample: for a record with no movements, the movement-count
column of the CSV row is present but holds the number 0, not a blank value —
so the claim that all movement-derived columns hold blanks fails. -/
theorem c8_blank_counterexample :
    (csvRow (fun _ => none) true true sampleProcessNoMovs).lookup "Total de Movimentações"
        = some (.n 0) ∧
    (csvRow (fun _ => none) true true sampleProcessNoMovs).lookup "Total de Movimentações"
        ≠ some (.s "") := by
  decide

/-- C8 as amended: whenever `includeMovements` is false or the record has no
movements, all eight movement-derived CSV columns are still present; the
count column holds the number 0 and the seven name/date/history columns hold
empty strings. -/
theorem c8_movement_columns (jsDateParse : String → Option (String × String))
    (incM incS : Bool) (p : ProcessResult)
    (h : incM = false ∨ p.movimentos = []) :
    ((csvRow jsDateParse incM incS p).lookup "Total de Movimentações" = some (.n 0)) ∧
    ((csvRow jsDateParse incM incS p).lookup "Último Andamento" = some (.s "")) ∧
    ((csvRow jsDateParse incM incS p).lookup "Data Último Andamento" = some (.s "")) ∧
    ((csvRow jsDateParse incM incS p).lookup "Penúltimo Andamento" = some (.s "")) ∧
    ((csvRow jsDateParse incM incS p).lookup "Data Penúltimo Andamento" = some (.s "")) ∧
    ((csvRow jsDateParse incM incS p).lookup "Antepenúltimo Andamento" = some (.s "")) ∧
    ((csvRow jsDateParse incM incS p).lookup "Data Antepenúltimo Andamento" = some (.s "")) ∧
    ((csvRow jsDateParse incM incS p).lookup "Histórico Completo de Movimentações"
        = some (.s "")) := by
  have hm : (incM && !p.movimentos.isEmpty) = false := by
    rcases h with h | h <;> simp [h]
  unfold csvRow
  rw [hm]
  by_cases hs : (incS && !p.assuntos.isEmpty) = true
  · rw [hs]
    simp only [if_true, Bool.false_eq_true, if_false]
    refine ⟨?_, ?_, ?_, ?_, ?_, ?_, ?_, ?_⟩ <;>
      rw [lookup_append_right (by simp)] <;> rfl
  · rw [Bool.not_eq_true] at hs
    rw [hs]
    simp only [Bool.false_eq_true, if_false]
    refine ⟨?_, ?_, ?_, ?_, ?_, ?_, ?_, ?_⟩ <;>
      rw [lookup_append_right (by simp)] <;> rfl

/-- Closed instance of the amended C8 theorem with movements disabled. -/
theorem c8_movement_columns_witness :
    (csvRow (fun _ => none) false true sampleProcessNoMovs).lookup "Último Andamento"
        = some (.s "") :=
  (c8_movement_columns (fun _ => none) false true sampleProcessNoMovs (Or.inl rfl)).2.1

/-- C10: `formatDateSafely` is a total function of its string input; the
empty string maps to the empty string, a sentinel value (case-insensitively
matching the sentinel list) is returned unchanged, and any input the date
parser rejects is returned unchanged — malformed or sentinel text passes
through the renderers verbatim. -/
theorem c10_format_date_safely
    (jsDateParse : String → Option (String × String)) (format : DateFmt) (s : String) :
    (s = "" → formatDateSafely jsDateParse s format = "") ∧
    (isSentinelDate s = true → formatDateSafely jsDateParse s format = s) ∧
    (jsDateParse s = none → formatDateSafely jsDateParse s format = s) := by
  refine ⟨?_, ?_, ?_⟩
  · intro h
    simp [formatDateSafely, h]
  · intro h
    by_cases he : s = ""
    · simp [formatDateSafely, he]
    · simp [formatDateSafely, he, h]
  · intro h
    by_cases he : s = ""
    · simp [formatDateSafely, he]
    · by_cases hsen : isSentinelDate s = true
      · simp [formatDateSafely, he, hsen]
      · simp [formatDateSafely, he, hsen, h]

/-- Closed instance of the C10 theorem: the sentinel passes through. -/
theorem c10_format_date_safely_witness :
    formatDateSafely (fun _ => none) "Não informado" .date = "Não informado" :=
  (c10_format_date_safely (fun _ => none) .date "Não informado").2.1 (by decide)
